import Mathlib

/-!
Verification of the ffmpeg-multitrack-recorder controller.

This file gives a shallow embedding, in Lean 4, of the parts of the Python
source under `src/controller/` that the checked properties talk about:

* `app.py` — manifest building, ffmpeg command vector construction,
  `check_secret`, `resolve_inputs_from_request`, `start_recording`,
  `stop_and_release` and `handle_participant_change`;
* `xmpp_client.py` — the participant tracker, forwarder allocation,
  the Colibri2 `conference-modify` handler and the capability flags;
* `jingle_sdp.py` — `jingle_to_sdp`, `_parse_sdp_media_sections` and
  `sdp_to_jingle_accept`.

Python strings are embedded as `String`, processed through explicit
character lists (the Lean core string primitives are avoided because they
do not reduce inside the kernel).  Python `dict`s are embedded as
association lists with unique keys; `upsert` is dict assignment and
`eraseKey` is `del`.  Python `None` is `Option.none`; Python truthiness of
a string is the test against `""`/`none`.  Machine integers do not occur
(ports and SSRCs are small naturals in the source).
-/

namespace Recorder

/-! ## String helpers (Python `str` operations on character lists) -/

/-- Split a character list on a single separator character; mirrors
Python `str.split(sep)` for a one-character separator (keeps empty parts). -/
def chSplitOn (c : Char) : List Char → List (List Char)
  | [] => [[]]
  | ch :: rest =>
    let r := chSplitOn c rest
    if ch = c then [] :: r
    else match r with
      | [] => [[ch]]
      | g :: gs => (ch :: g) :: gs

/-- Python `s.split(c)` for a one-character separator. -/
def strSplitOn (s : String) (c : Char) : List String :=
  (chSplitOn c s.toList).map String.mk

/-- Bool test for one list occurring inside another (contiguously). -/
def isInfixOfCL : List Char → List Char → Bool
  | _, [] => false
  | pat, c :: rest => pat.isPrefixOf (c :: rest) || isInfixOfCL pat rest

/-- Python `pat in s` on strings: `pat` occurs contiguously in `s`
(the empty pattern is contained in every string). -/
def strContains (s pat : String) : Bool :=
  pat.toList.isPrefixOf s.toList || isInfixOfCL pat.toList s.toList

/-- Python `s.split('/')[-1]` (a split result is never empty). -/
def lastSlashComponent (s : String) : String :=
  (strSplitOn s '/').getLastD s

/-- Python `s.split('/')[0]` (a split result is never empty). -/
def firstSlashComponent (s : String) : String :=
  (strSplitOn s '/').headD s

/-- Python `s.split('@')[0]`. -/
def firstAtComponent (s : String) : String :=
  (strSplitOn s '@').headD s

/-- Python truthiness of an optional string: `None` and `""` are falsy. -/
def pyTruthyOptStr : Option String → Bool
  | none => false
  | some s => s ≠ ""

/-- Python `a or default` for an optional string (falsy values replaced). -/
def pyOrStr (o : Option String) (d : String) : String :=
  match o with
  | some s => if s = "" then d else s
  | none => d

/-- Python `a or default` for an optional natural (None and 0 are falsy). -/
def pyOrNat (o : Option Nat) (d : Nat) : Nat :=
  match o with
  | some n => if n = 0 then d else n
  | none => d

/-- Python `a or b` for two optional strings (first truthy value wins). -/
def pyOrOpt (a b : Option String) : Option String :=
  if pyTruthyOptStr a then a else b

/-- Python `str(x)` of an optional string (`None` prints as `"None"`). -/
def pyStrOptS : Option String → String
  | none => "None"
  | some s => s

/-- Python `str(x)` of an optional natural (`None` prints as `"None"`). -/
def pyStrOptN : Option Nat → String
  | none => "None"
  | some n => toString n

/-! ## Association lists as Python dicts (unique keys) -/

/-- Dict assignment `m[k] = v`: replace the value at the first occurrence
of `k`, or append a new entry when `k` is absent. -/
def upsert {β : Type} (m : List (String × β)) (k : String) (v : β) :
    List (String × β) :=
  match m with
  | [] => [(k, v)]
  | e :: rest => if e.1 = k then (k, v) :: rest else e :: upsert rest k v

/-- Dict deletion `del m[k]`.  A Python dict holds each key once, so
removing every pair carrying the key is the same operation. -/
def eraseKey {β : Type} (m : List (String × β)) (k : String) :
    List (String × β) :=
  m.filter (fun e => ¬ e.1 = k)

theorem lookup_upsert_self {β : Type} (m : List (String × β)) (k : String) (v : β) :
    (upsert m k v).lookup k = some v := by
  induction m with
  | nil => simp [upsert, List.lookup]
  | cons e rest ih =>
    by_cases h : e.1 = k
    · simp [upsert, h, List.lookup]
    · have hbeq : (k == e.1) = false := by
        simp only [beq_eq_false_iff_ne, ne_eq]
        exact fun hk => absurd hk.symm h
      simp [upsert, h, List.lookup, hbeq, ih]

theorem lookup_upsert_ne {β : Type} (m : List (String × β)) (k k' : String) (v : β)
    (h : k' ≠ k) : (upsert m k v).lookup k' = m.lookup k' := by
  have hbeq : (k' == k) = false := by
    simp only [beq_eq_false_iff_ne, ne_eq]
    exact h
  induction m with
  | nil => simp [upsert, List.lookup, hbeq]
  | cons e rest ih =>
    by_cases he : e.1 = k
    · subst he
      simp [upsert, List.lookup, hbeq]
    · simp only [upsert, if_neg he]
      by_cases hk : k' = e.1
      · simp [List.lookup, hk]
      · have hbeq2 : (k' == e.1) = false := by
          simp only [beq_eq_false_iff_ne, ne_eq]
          exact hk
        simp [List.lookup, hbeq2, ih]

theorem lookup_eraseKey_self {β : Type} (m : List (String × β)) (k : String) :
    (eraseKey m k).lookup k = none := by
  induction m with
  | nil => simp [eraseKey, List.lookup]
  | cons e rest ih =>
    by_cases h : e.1 = k
    · simpa [eraseKey, h] using ih
    · have hbeq : (k == e.1) = false := by
        simp only [beq_eq_false_iff_ne, ne_eq]
        exact fun hk => absurd hk.symm h
      simpa [eraseKey, h, List.lookup, hbeq] using ih

/-! ## `app.py` — filename sanitisation and the manifest (`build_manifest`)

`build_manifest` embeds the nested `sanitize_filename`:
`re.sub(r'[^\w\-]', '_', name)` (every character outside `[A-Za-z0-9_-]`
becomes `_`; the source applies it to ASCII participant names), then
`re.sub(r'_+', '_', ...)` (runs of `_` collapse to one), then
`.strip('_')`. -/

/-- A character matched by Python `[\w\-]` at the ASCII level. -/
def isWordChar (c : Char) : Bool :=
  c.isAlphanum || c = '_' || c = '-'

/-- `re.sub(r'[^\w\-]', '_', name)`. -/
def replaceNonWord (s : String) : String :=
  String.mk (s.toList.map (fun c => if isWordChar c then c else '_'))

/-- One step of `re.sub(r'_+', '_', s)` on character lists. -/
def collapseUnderscoresCL : List Char → List Char
  | [] => []
  | [c] => [c]
  | c1 :: c2 :: rest =>
    if c1 = '_' ∧ c2 = '_' then collapseUnderscoresCL (c2 :: rest)
    else c1 :: collapseUnderscoresCL (c2 :: rest)

/-- `re.sub(r'_+', '_', s)`: collapse each run of underscores to one. -/
def collapseUnderscores (s : String) : String :=
  String.mk (collapseUnderscoresCL s.toList)

/-- Python `s.strip('_')`. -/
def stripUnderscores (s : String) : String :=
  String.mk (((s.toList.dropWhile (· = '_')).reverse.dropWhile (· = '_')).reverse)

/-- `sanitize_filename` from `build_manifest` in `app.py`. -/
def sanitize_filename (name : String) : String :=
  if name = "" then ""
  else stripUnderscores (collapseUnderscores (replaceNonWord name))

/-- The `audio_file` recorded in the manifest for a participant:
`"audio-<sanitized-name>-<id>.opus"` when the display name is non-empty,
else `"audio-<id>.opus"` (from `build_manifest` in `app.py`). -/
def manifestAudioFile (name pid : String) : String :=
  if name ≠ "" then "audio-" ++ sanitize_filename name ++ "-" ++ pid ++ ".opus"
  else "audio-" ++ pid ++ ".opus"

/-! ## Participant records flowing through the orchestrator -/

/-- The per-participant forwarder dict built by
`allocate_forwarder_for_participant` in `xmpp_client.py`
(`{'ip': …, 'port': …, 'allocated_at': …, 'endpoint_id': …}`).
`ip` and `port` come from `.get` calls and may be `None`. -/
structure TrackedForwarder where
  ip : Option String := none
  port : Option Nat := none
  allocated_at : Nat := 0
  endpoint_id : Option String := none
  deriving DecidableEq, Repr

/-- The audio sub-dict of an endpoint in the HTTP Colibri fallback reply. -/
structure HttpEndpointAudio where
  ip : Option String := none
  host : Option String := none
  port : Option Nat := none
  ssrc : Option Nat := none
  deriving DecidableEq, Repr

/-- The heterogeneous `forwarder` value stored in participant dicts:
absent key (manifest default `{}`), the tracker's forwarder dict, or the
HTTP fallback's audio dict. -/
inductive FwdInfo
  | absent
  | tracked (f : TrackedForwarder)
  | httpAudio (a : HttpEndpointAudio)
  deriving DecidableEq, Repr

/-- A participant dict as consumed by `build_manifest` and
`build_ffmpeg_command`: keys `id` and `rtp_url` are indexed directly,
`name`, `ssrc` and `forwarder` are read with `.get` defaults. -/
structure Participant where
  id : String
  name : String := ""
  jid : Option String := none
  rtp_url : String
  ssrc : Option Nat := none
  pt : Option Nat := none
  bridge_jid : Option String := none
  forwarder : FwdInfo := .absent
  deriving DecidableEq, Repr

/-- One entry of the manifest's `participants` list. -/
structure ManifestEntry where
  id : String
  display_name : String
  audio_file : String
  rtp_url : String
  ssrc : Option Nat
  forwarder : FwdInfo
  deriving DecidableEq, Repr

/-- The session manifest built by `build_manifest` in `app.py`. -/
structure Manifest where
  id : String
  room : String
  started_at : String
  participants : List ManifestEntry
  output_dir : String
  mix : Bool
  colibri_session : Option String
  ended_at : Option String := none
  logs_tail : Option (List String) := none
  deriving DecidableEq, Repr

/-- `build_manifest(room, participants, out_dir, rec_id, mix,
colibri_session)`; the wall-clock `started_at` is passed explicitly. -/
def build_manifest (room : String) (participants : List Participant)
    (out_dir : String) (rec_id : String) (mix : Bool)
    (colibri_session : Option String) (started_at : String) : Manifest :=
  { id := rec_id
    room := room
    started_at := started_at
    participants := participants.map (fun p =>
      { id := p.id
        display_name := p.name
        audio_file := manifestAudioFile p.name p.id
        rtp_url := p.rtp_url
        ssrc := p.ssrc
        forwarder := p.forwarder })
    output_dir := out_dir
    mix := mix
    colibri_session := colibri_session }

/-! ## `ffmpeg_launcher.py` — `build_ffmpeg_command` -/

/-- The input flags appended for one participant. -/
def inputArgs (p : Participant) : List String :=
  ["-protocol_whitelist", "file,udp,rtp,crypto",
   "-use_wallclock_as_timestamps", "1",
   "-fflags", "+igndts+genpts",
   "-i", p.rtp_url]

/-- The map flags appended for the participant at index `idx`; the output
path is `str(out_dir / f"audio-{p['id']}.opus")`. -/
def mapArgs (out_dir : String) (idx : Nat) (p : Participant) : List String :=
  ["-map", toString idx ++ ":a", "-c:a", "copy",
   out_dir ++ "/audio-" ++ p.id ++ ".opus"]

/-- The `-filter_complex` mixdown arguments (only when `mix` is requested
and the participant list is non-empty). -/
def mixArgs (out_dir : String) (n : Nat) : List String :=
  let filter_complex := String.intercalate ";"
    ((List.range n).map (fun i =>
      "[" ++ toString i ++ ":a]anull[a" ++ toString i ++ "]"))
  let input_refs := String.join
    ((List.range n).map (fun i => "[a" ++ toString i ++ "]"))
  let fc := filter_complex ++ ";" ++ input_refs ++ "amix=inputs=" ++
    toString n ++ ":normalize=0[mixed]"
  ["-filter_complex", fc, "-map", "[mixed]", "-c:a", "aac",
   "-movflags", "+faststart", out_dir ++ "/mix.m4a"]

/-- `build_ffmpeg_command(room, participants, out_dir, mix)` from
`ffmpeg_launcher.py`.  The `room` argument is unused by the source too. -/
def build_ffmpeg_command (room : String) (participants : List Participant)
    (out_dir : String) (mix : Bool) : List String :=
  ["ffmpeg", "-hide_banner", "-nostats", "-loglevel", "info"]
    ++ participants.flatMap inputArgs
    ++ participants.enum.flatMap (fun ip => mapArgs out_dir ip.1 ip.2)
    ++ (if mix ∧ participants ≠ [] then mixArgs out_dir participants.length
        else [])

/-! ## Claim C2 — command-vector filenames vs. manifest filenames

`build_manifest` computes `audio_file` from the display name ("Build
filename to match FFmpeg output"), but `build_ffmpeg_command` names its
output `audio-{p['id']}.opus` from the id alone, so the two disagree as
soon as a participant carries a non-empty name. -/

/-- The participant used to exhibit the C2 divergence. -/
def c2Participant : Participant :=
  { id := "abc12", name := "John Doe", rtp_url := "rtp://127.0.0.1:50000" }

/-- C2 (code_bug): for the participant list `[{id: "abc12", name: "John
Doe", rtp_url: …}]` and output directory `/recordings/ffmpeg/r1/t0`, the
output path appended to the capture command vector ends in
`audio-abc12.opus`, while the manifest built for the same list records
`audio_file = "audio-John_Doe-abc12.opus"`; the filename equality stated
by the claim (and by the comment inside `build_manifest`) fails. -/
theorem C2_code_bug :
    (build_ffmpeg_command "r1" [c2Participant] "/recordings/ffmpeg/r1/t0"
        false).getLast? =
      some "/recordings/ffmpeg/r1/t0/audio-abc12.opus"
    ∧ ((build_manifest "r1" [c2Participant] "/recordings/ffmpeg/r1/t0"
          "rec-1" false none "ts").participants.map
            (fun e => e.audio_file)) = ["audio-John_Doe-abc12.opus"]
    ∧ ¬ ((build_ffmpeg_command "r1" [c2Participant] "/recordings/ffmpeg/r1/t0"
          false).getLast? =
        some ("/recordings/ffmpeg/r1/t0/" ++
          manifestAudioFile c2Participant.name c2Participant.id)) := by
  refine ⟨by decide, by decide, by decide⟩

/-! ## `xmpp_client.py` — the participant tracker -/

/-- One per-SSRC record kept in a participant's `ssrcs` map (built by
`extract_ssrcs_from_jingle`). -/
structure SsrcInfo where
  ssrc : Nat
  cname : String := ""
  msid : String := ""
  mslabel : String := ""
  label : String := ""
  deriving DecidableEq, Repr

/-- A tracked participant, as built by `_parse_participant_from_presence`
and mutated by the SSRC and forwarder assignment code.  Every record the
source builds carries the `ssrcs` key (initialised to `{}`); `forwarder`
and `nick` are keys the source reads through `.get`, so they are embedded
as options (`nick` is in fact never written by the source). -/
structure TrackedParticipant where
  jid : String
  display_name : Option String := none
  stats_id : Option String := none
  audio_muted : Bool := false
  video_muted : Bool := false
  joined_at : String := ""
  ssrcs : List (String × SsrcInfo) := []
  forwarder : Option TrackedForwarder := none
  nick : Option String := none
  deriving DecidableEq, Repr

/-- The per-room participant table: MUC room JID → participant id → record,
in join (insertion) order. -/
abbrev ConferenceTable := List (String × TrackedParticipant)

/-- The slice of `XMPPBot` state that the checked claims read. -/
structure Bot where
  domain : String := "meet.jitsi"
  bridge_jid : Option String := none
  ready : Bool := false
  supports_colibri_v1 : Bool := false
  supports_colibri_v2 : Bool := false
  conference_participants : List (String × ConferenceTable) := []
  conference_ids : List (String × String) := []
  deriving DecidableEq, Repr

/-- `is_in_conference(room)`: membership of `f"{room}@muc.{domain}"` in
the tracked-conference map. -/
def Bot.is_in_conference (bot : Bot) (room : String) : Bool :=
  ((bot.conference_participants.lookup
      (room ++ "@muc." ++ bot.domain)).isSome)

/-- One element of the list returned by
`get_participants_with_forwarders`. -/
structure ForwarderEntry where
  id : String
  name : String
  jid : String
  rtp_url : String
  ssrc : Option Nat
  forwarder : TrackedForwarder
  deriving DecidableEq, Repr

/-- The entry built for a participant whose dict holds a forwarder:
`id` is `fwd.get('endpoint_id', jid.split('/')[-1])`, `name` is
`participant.get('nick', '')`, `rtp_url` interpolates the forwarder's
`ip`/`port` (Python prints `None` for missing values), and `ssrc` is
`participant['ssrcs'].get('audio', {}).get('ssrc')`. -/
def mkForwarderEntry (pid : String) (p : TrackedParticipant)
    (fwd : TrackedForwarder) : ForwarderEntry :=
  { id := fwd.endpoint_id.getD (lastSlashComponent pid)
    name := p.nick.getD ""
    jid := pid
    rtp_url := "rtp://" ++ pyStrOptS fwd.ip ++ ":" ++ pyStrOptN fwd.port
    ssrc := (p.ssrcs.lookup "audio").map (fun s => s.ssrc)
    forwarder := fwd }

/-- `get_participants_with_forwarders(room)` from `xmpp_client.py`.  The
source keeps a participant when `'forwarder' in participant and 'ssrcs'
in participant`; the `ssrcs` key is present on every record the source
constructs, so the second conjunct is always satisfied and only the
forwarder key decides membership. -/
def Bot.get_participants_with_forwarders (bot : Bot) (room : String) :
    List ForwarderEntry :=
  match bot.conference_participants.lookup room with
  | none => []
  | some parts =>
    parts.filterMap (fun jp =>
      match jp.2.forwarder with
      | none => none
      | some fwd => some (mkForwarderEntry jp.1 jp.2 fwd))

/-- The claim's reading of §4.E (for contrast): only participants having
BOTH a non-empty SSRC map and a forwarder are returned. -/
def claimedParticipantsWithForwarders (bot : Bot) (room : String) :
    List ForwarderEntry :=
  match bot.conference_participants.lookup room with
  | none => []
  | some parts =>
    parts.filterMap (fun jp =>
      match jp.2.forwarder with
      | none => none
      | some fwd =>
        if jp.2.ssrcs = [] then none
        else some (mkForwarderEntry jp.1 jp.2 fwd))

/-! ### Claim C6 -/

/-- A bot tracking one participant who carries a forwarder but an empty
SSRC map. -/
def c6Bot : Bot :=
  { conference_participants :=
      [("r2@muc.meet.jitsi",
        [("p1", { jid := "r2@muc.meet.jitsi/p1"
                  ssrcs := []
                  forwarder := some { ip := some "10.0.0.5", port := some 50000,
                                      endpoint_id := some "p1" } })])] }

/-- C6 counterexample: a participant with an allocated forwarder but an
empty SSRC map is returned by `get_participants_with_forwarders`, though
the claim requires such a participant to be excluded (the claimed variant
returns nothing here). -/
theorem C6_counterexample :
    ((c6Bot.get_participants_with_forwarders "r2@muc.meet.jitsi").map
      (fun e => e.id)) = ["p1"]
    ∧ (∀ jp ∈ (c6Bot.conference_participants.lookup
          "r2@muc.meet.jitsi").getD [], jp.2.ssrcs = [])
    ∧ claimedParticipantsWithForwarders c6Bot "r2@muc.meet.jitsi" = [] := by
  refine ⟨by decide, by decide, by decide⟩

/-- C6 (amended): `get_participants_with_forwarders(R)` returns exactly
the participants of `R` whose dict carries a forwarder — the `ssrcs` key
is always present, so no non-emptiness of the SSRC map is required — each
shaped as `{id, name, jid, rtp_url, ssrc, forwarder}` by
`mkForwarderEntry`. -/
theorem C6_amended (bot : Bot) (room : String) (e : ForwarderEntry) :
    e ∈ bot.get_participants_with_forwarders room ↔
      ∃ jp ∈ (bot.conference_participants.lookup room).getD [],
        ∃ fwd, jp.2.forwarder = some fwd ∧ e = mkForwarderEntry jp.1 jp.2 fwd := by
  unfold Bot.get_participants_with_forwarders
  cases hl : bot.conference_participants.lookup room with
  | none => simp
  | some parts =>
    simp only [List.mem_filterMap, Option.getD_some]
    constructor
    · rintro ⟨jp, hmem, hsome⟩
      cases hf : jp.2.forwarder with
      | none => rw [hf] at hsome; simp at hsome
      | some fwd =>
        rw [hf] at hsome
        simp only [Option.some_inj] at hsome
        exact ⟨jp, hmem, fwd, hf, hsome.symm⟩
    · rintro ⟨jp, hmem, fwd, hf, he⟩
      exact ⟨jp, hmem, by rw [hf, he]⟩

/-! ## Claim C7 — SSRC binding in `_handle_jingle_session_initiate_async`

Lines 495–525 of `xmpp_client.py`: when the parsed SSRC map is non-empty
and the initiator is a MUC occupant JID, the handler walks the room's
participants in reverse join order, skips any whose dict already holds
SSRCs or whose identifier contains `focus`/`jibri` or equals
`recorder-bot`, assigns the SSRC map to the first remaining one, requests
a forwarder for it, and stops. -/

/-- The source's skip condition, verbatim order:
`participant.get('ssrcs') or 'focus' in jid or 'jibri' in jid or
jid == 'recorder-bot'`. -/
def skipForSsrcAssignment (jid : String) (p : TrackedParticipant) : Bool :=
  !p.ssrcs.isEmpty || strContains jid "focus" || strContains jid "jibri" ||
    jid == "recorder-bot"

/-- The claim's qualification predicate: identifier free of
`focus`/`jibri`, different from `recorder-bot`, and an empty `ssrcs`
map. -/
def qualifiesForSsrcs (jid : String) (p : TrackedParticipant) : Bool :=
  !strContains jid "focus" && !strContains jid "jibri" &&
    !(jid == "recorder-bot") && p.ssrcs.isEmpty

theorem skip_eq_not_qualifies (jid : String) (p : TrackedParticipant) :
    skipForSsrcAssignment jid p = !qualifiesForSsrcs jid p := by
  unfold skipForSsrcAssignment qualifiesForSsrcs
  cases p.ssrcs.isEmpty <;> cases strContains jid "focus" <;>
    cases strContains jid "jibri" <;> cases jid == "recorder-bot" <;> rfl

/-- The source loop `for jid in reversed(list(participants.keys()))`,
applied here to the already reversed table: the first entry not skipped
is chosen. -/
def pickFrom : ConferenceTable → Option String
  | [] => none
  | (jid, p) :: rest =>
    if skipForSsrcAssignment jid p then pickFrom rest else some jid

/-- The participant chosen by the handler: first non-skipped entry in
reverse join order. -/
def pickSsrcTarget (parts : ConferenceTable) : Option String :=
  pickFrom parts.reverse

/-- The mutation applied to the chosen participant: the parsed SSRC map is
stored, and `allocate_forwarder_for_participant` stores a forwarder dict
on success (`alloc = some f`) and leaves the field alone on failure. -/
def updateAssigned (p : TrackedParticipant) (ssrcs : List (String × SsrcInfo))
    (alloc : Option TrackedForwarder) : TrackedParticipant :=
  { p with
      ssrcs := ssrcs,
      forwarder := (match alloc with
                    | some f => some f
                    | none => p.forwarder) }

/-- The table after the handler's assignment loop. -/
def assignSsrcsToTable (parts : ConferenceTable)
    (ssrcs : List (String × SsrcInfo)) (alloc : Option TrackedForwarder) :
    ConferenceTable :=
  match pickSsrcTarget parts with
  | none => parts
  | some k => parts.map (fun jp =>
      if jp.1 = k then (jp.1, updateAssigned jp.2 ssrcs alloc) else jp)

/-- The SSRC-mapping fragment of
`_handle_jingle_session_initiate_async`: guarded by a non-empty parsed
SSRC map, an initiator JID containing `@muc.`, and the room
(`initiator.split('/')[0]`) being tracked. -/
def handleSessionInitiateSsrcs (bot : Bot) (initiator : String)
    (ssrcs : List (String × SsrcInfo)) (alloc : Option TrackedForwarder) : Bot :=
  if ssrcs.isEmpty then bot
  else if strContains initiator "@muc." then
    let room := firstSlashComponent initiator
    match bot.conference_participants.lookup room with
    | none => bot
    | some parts =>
      { bot with conference_participants :=
          (upsert bot.conference_participants room
            (assignSsrcsToTable parts ssrcs alloc)) }
  else bot

theorem pickFrom_eq_find (l : ConferenceTable) :
    pickFrom l =
      (l.find? (fun jp => qualifiesForSsrcs jp.1 jp.2)).map Prod.fst := by
  induction l with
  | nil => rfl
  | cons e rest ih =>
    obtain ⟨jid, p⟩ := e
    cases hq : qualifiesForSsrcs jid p with
    | false =>
      have hs : skipForSsrcAssignment jid p = true := by
        rw [skip_eq_not_qualifies, hq]; rfl
      simp [pickFrom, hs, List.find?, hq, ih]
    | true =>
      have hs : skipForSsrcAssignment jid p = false := by
        rw [skip_eq_not_qualifies, hq]; rfl
      simp [pickFrom, hs, List.find?, hq]

/-- C7: for a session-initiate whose parsed SSRC map is non-empty,
delivered from a tracked MUC room, the handler assigns the SSRC map to
exactly the first participant in reverse join order qualifying under the
claim's predicate (no `focus`/`jibri` in the identifier, not
`recorder-bot`, empty `ssrcs`), leaving every other entry of the table,
and every other room, unchanged; when no participant qualifies the whole
table is unchanged. -/
theorem C7_ssrc_binding (bot : Bot) (initiator : String)
    (ssrcs : List (String × SsrcInfo)) (alloc : Option TrackedForwarder)
    (parts : ConferenceTable)
    (hs : ssrcs ≠ [])
    (hm : strContains initiator "@muc." = true)
    (hl : bot.conference_participants.lookup (firstSlashComponent initiator) =
      some parts) :
    ((handleSessionInitiateSsrcs bot initiator ssrcs
        alloc).conference_participants.lookup (firstSlashComponent initiator) =
      some (match parts.reverse.find?
              (fun jp => qualifiesForSsrcs jp.1 jp.2) with
            | none => parts
            | some jp0 => parts.map (fun jp =>
                if jp.1 = jp0.1 then (jp.1, updateAssigned jp.2 ssrcs alloc)
                else jp)))
    ∧ ∀ r, r ≠ firstSlashComponent initiator →
        (handleSessionInitiateSsrcs bot initiator ssrcs
          alloc).conference_participants.lookup r =
        bot.conference_participants.lookup r := by
  have hne : ssrcs.isEmpty = false := by
    cases ssrcs with
    | nil => exact absurd rfl hs
    | cons a l => rfl
  have key : handleSessionInitiateSsrcs bot initiator ssrcs alloc =
      { bot with conference_participants :=
          (upsert bot.conference_participants (firstSlashComponent initiator)
            (assignSsrcsToTable parts ssrcs alloc)) } := by
    unfold handleSessionInitiateSsrcs
    rw [hne, hm]
    simp only [Bool.false_eq_true, if_false, if_true, hl]
  rw [key]
  refine ⟨?_, ?_⟩
  · show (upsert bot.conference_participants (firstSlashComponent initiator)
        (assignSsrcsToTable parts ssrcs alloc)).lookup
        (firstSlashComponent initiator) = _
    rw [lookup_upsert_self]
    unfold assignSsrcsToTable pickSsrcTarget
    rw [pickFrom_eq_find]
    cases parts.reverse.find? (fun jp => qualifiesForSsrcs jp.1 jp.2) with
    | none => rfl
    | some jp0 => rfl
  · intro r hr
    exact lookup_upsert_ne _ _ _ _ hr

/-- C7 witness: a concrete room where the focus and an SSRC-bearing
participant are skipped and the most recent clean participant receives
the map. -/
theorem C7_ssrc_binding_witness :
    ((handleSessionInitiateSsrcs
        { conference_participants :=
            [("t@muc.meet.jitsi",
              [("alice", { jid := "t@muc.meet.jitsi/alice" }),
               ("focus-77", { jid := "t@muc.meet.jitsi/focus-77" }),
               ("bob", { jid := "t@muc.meet.jitsi/bob" })])] }
        "t@muc.meet.jitsi/focus-77"
        [("audio", { ssrc := 1234 })] none).conference_participants.lookup
      "t@muc.meet.jitsi") =
      some [("alice", { jid := "t@muc.meet.jitsi/alice" }),
            ("focus-77", { jid := "t@muc.meet.jitsi/focus-77" }),
            ("bob", { jid := "t@muc.meet.jitsi/bob",
                      ssrcs := [("audio", { ssrc := 1234 })] })] := by
  have h := C7_ssrc_binding
    { conference_participants :=
        [("t@muc.meet.jitsi",
          [("alice", { jid := "t@muc.meet.jitsi/alice" }),
           ("focus-77", { jid := "t@muc.meet.jitsi/focus-77" }),
           ("bob", { jid := "t@muc.meet.jitsi/bob" })])] }
    "t@muc.meet.jitsi/focus-77"
    [("audio", { ssrc := 1234 })] none
    [("alice", { jid := "t@muc.meet.jitsi/alice" }),
     ("focus-77", { jid := "t@muc.meet.jitsi/focus-77" }),
     ("bob", { jid := "t@muc.meet.jitsi/bob" })]
    (by decide) (by decide) (by decide)
  refine h.1.trans ?_
  decide

/-! ## Claim C4 — `_handle_colibri2_conference_modify`

The handler extracts the `meeting-id` and `name` attributes of the
`conference-modify` child, stores `conference_ids[room_name] = meeting_id`
when both are truthy (only under the full `name` value; no short-name key
is written, unlike the Jingle `bridge-session` path at lines 469–474 which
stores both), and sends exactly one result IQ in every case — the reply
sits after the `try`/`except` block, so extraction failures cannot
suppress it. -/

/-- The attributes of an inbound `conference-modify` element; `none`
models a missing attribute.  The whole element may be absent from the IQ
(`Option` at the call site). -/
structure ConferenceModifyAttrs where
  meeting_id : Option String := none
  name : Option String := none
  deriving DecidableEq, Repr

/-- `_handle_colibri2_conference_modify`: returns the updated
`conference_ids` map and the number of result IQs sent (always one). -/
def handle_colibri2_conference_modify (ids : List (String × String))
    (stanza : Option ConferenceModifyAttrs) : List (String × String) × Nat :=
  let ids2 :=
    match stanza with
    | none => ids
    | some a =>
      match a.meeting_id, a.name with
      | some m, some r =>
        if m ≠ "" ∧ r ≠ "" then upsert ids r m else ids
      | _, _ => ids
  (ids2, 1)

/-- C4 counterexample: handling `conference-modify` with
`meeting-id="M"` and `name="r3@muc.example"` from an empty cache leaves
no entry under the short room name `r3` — the claim requires
`r3 → M` to be stored as well — while the full-JID entry and the single
reply are produced. -/
theorem C4_counterexample :
    ((handle_colibri2_conference_modify []
        (some { meeting_id := some "M",
                name := some "r3@muc.example" })).1.lookup "r3") = none
    ∧ ((handle_colibri2_conference_modify []
        (some { meeting_id := some "M",
                name := some "r3@muc.example" })).1.lookup "r3@muc.example") =
      some "M"
    ∧ (handle_colibri2_conference_modify []
        (some { meeting_id := some "M",
                name := some "r3@muc.example" })).2 = 1 := by
  refine ⟨by decide, by decide, by decide⟩

/-- C4 (amended): the handler always sends exactly one result IQ, and
when the stanza carries truthy `meeting-id` M and `name` R it upserts
only `R → M` into the room-to-conference-ID map, leaving every other key
unchanged; in every other case the map is untouched. -/
theorem C4_conference_modify (ids : List (String × String))
    (m r : String) (hm : m ≠ "") (hr : r ≠ "") :
    ((handle_colibri2_conference_modify ids
        (some { meeting_id := some m, name := some r })).2 = 1)
    ∧ ((handle_colibri2_conference_modify ids
        (some { meeting_id := some m, name := some r })).1.lookup r = some m)
    ∧ (∀ k, k ≠ r →
        (handle_colibri2_conference_modify ids
          (some { meeting_id := some m, name := some r })).1.lookup k =
        ids.lookup k)
    ∧ (∀ s, (s = none ∨ ∃ a, s = some a ∧
          (¬ pyTruthyOptStr a.meeting_id ∨ ¬ pyTruthyOptStr a.name)) →
        (handle_colibri2_conference_modify ids s).1 = ids) := by
  have hred : handle_colibri2_conference_modify ids
      (some { meeting_id := some m, name := some r }) = (upsert ids r m, 1) := by
    unfold handle_colibri2_conference_modify
    simp [hm, hr]
  refine ⟨by rw [hred], ?_, ?_, ?_⟩
  · rw [hred]
    exact lookup_upsert_self ids r m
  · intro k hk
    rw [hred]
    exact lookup_upsert_ne _ _ _ _ hk
  · rintro s (hnone | ⟨a, hsome, hfalsy⟩)
    · rw [hnone]; rfl
    · subst hsome
      cases hmi : a.meeting_id with
      | none => simp [handle_colibri2_conference_modify, hmi]
      | some mv =>
        cases hna : a.name with
        | none => simp [handle_colibri2_conference_modify, hmi, hna]
        | some rv =>
          rw [hmi, hna] at hfalsy
          simp only [pyTruthyOptStr, ne_eq, decide_not, Bool.not_eq_true,
            Bool.not_eq_true', decide_eq_false_iff_not, Decidable.not_not]
            at hfalsy
          rcases hfalsy with h1 | h2
          · simp [handle_colibri2_conference_modify, hmi, hna, h1]
          · simp [handle_colibri2_conference_modify, hmi, hna, h2]

/-- C4 witness: concrete instantiation of the amended theorem. -/
theorem C4_conference_modify_witness :
    ((handle_colibri2_conference_modify [("old", "X")]
        (some { meeting_id := some "M1",
                name := some "r9@muc.example" })).1.lookup "r9@muc.example") =
      some "M1" :=
  (C4_conference_modify [("old", "X")] "M1" "r9@muc.example"
    (by decide) (by decide)).2.1

/-! ## Claim C3 — allocator dialect selection

`XMPPBot.allocate_forwarder` (lines 1253–1280) delegates unconditionally
to `allocate_colibri_v1`; the capability flags recorded by
`check_bridge_capabilities` (lines 373–422) are stored and logged but
never consulted, and no protocol-unsupported error exists on this path
(`Colibri2IQ.build_allocate` is never used for allocation). -/

/-- The fixed Opus payload element used by both stanza builders. -/
structure OpusPayload where
  id : String := "111"
  name : String := "opus"
  clockrate : String := "48000"
  channels : String := "2"
  deriving DecidableEq, Repr

/-- The two allocation stanza shapes the source can compose. -/
inductive AllocStanza
  | v1Conference (conferenceId : Option String) (contentName : String)
      (channelInitiator : String) (channelExpire : String)
      (payload : OpusPayload)
  | v2ConferenceModify (meetingId : String) (create : String)
      (endpointId : String) (endpointCreate : String) (mediaType : String)
      (payload : OpusPayload)
  deriving DecidableEq, Repr

/-- Which Colibri dialect a stanza belongs to. -/
inductive ColibriDialect
  | v1
  | v2
  deriving DecidableEq, Repr

def AllocStanza.dialect : AllocStanza → ColibriDialect
  | .v1Conference _ _ _ _ _ => .v1
  | .v2ConferenceModify _ _ _ _ _ _ => .v2

/-- The stanza assembled by `allocate_colibri_v1`: a v1 `conference`
(with the `id` attribute only when the conference id is truthy) holding
`content[name=audio]/channel[initiator=true][expire=180]` with the Opus
payload and an empty ICE transport. -/
def buildColibriV1Allocate (conference_id : String) : AllocStanza :=
  .v1Conference (if conference_id ≠ "" then some conference_id else none)
    "audio" "true" "180" {}

/-- The stanza assembled by `Colibri2IQ.build_allocate` (present in the
source but never invoked by the allocation path). -/
def buildColibri2Allocate (conference_id endpoint_id : String) : AllocStanza :=
  .v2ConferenceModify conference_id "true" endpoint_id "true" "audio" {}

/-- Errors the allocation path can raise before sending anything. -/
inductive AllocFailure
  | noBridge
  deriving DecidableEq, Repr

/-- `XMPPBot.allocate_forwarder` / `allocate_colibri_v1`: raises when no
bridge JID is discovered, otherwise composes and sends the v1 stanza —
the `endpoint_id` argument and both capability flags are ignored by the
source. -/
def Bot.allocate_forwarder (bot : Bot) (conference_id endpoint_id : String) :
    Except AllocFailure AllocStanza :=
  if pyTruthyOptStr bot.bridge_jid then .ok (buildColibriV1Allocate conference_id)
  else .error .noBridge

/-- C3 counterexample: with a discovered bridge that advertises only
Colibri v2, the allocation still composes a v1 `conference` stanza (the
claim requires conference-modify/endpoint stanzas), and with neither
version advertised it still sends the v1 stanza instead of failing with
a protocol-unsupported error. -/
theorem C3_counterexample :
    ((Bot.allocate_forwarder
        { bridge_jid := some "jvb@auth.meet.jitsi",
          supports_colibri_v1 := false, supports_colibri_v2 := true }
        "conf-1" "ep-1").map AllocStanza.dialect = .ok .v1)
    ∧ ((Bot.allocate_forwarder
        { bridge_jid := some "jvb@auth.meet.jitsi",
          supports_colibri_v1 := false, supports_colibri_v2 := false }
        "conf-1" "ep-1") =
      .ok (buildColibriV1Allocate "conf-1")) := by
  refine ⟨rfl, rfl⟩

/-- C3 (amended): whenever a bridge JID has been discovered,
`allocate_forwarder` composes the Colibri v1 `conference` stanza for the
given conference id, whatever the probed capability flags say; without a
bridge JID it raises, again independently of the flags. -/
theorem C3_dialect_selection (bot : Bot) (conference_id endpoint_id : String) :
    (pyTruthyOptStr bot.bridge_jid = true →
      bot.allocate_forwarder conference_id endpoint_id =
        .ok (buildColibriV1Allocate conference_id))
    ∧ (pyTruthyOptStr bot.bridge_jid = false →
      bot.allocate_forwarder conference_id endpoint_id = .error .noBridge) := by
  constructor
  · intro hj
    unfold Bot.allocate_forwarder
    rw [hj]
    rfl
  · intro hn
    unfold Bot.allocate_forwarder
    rw [hn]
    rfl

/-- C3 witness: concrete instantiation of the amended theorem. -/
theorem C3_dialect_selection_witness :
    (Bot.allocate_forwarder
      { bridge_jid := some "jvb@auth.meet.jitsi",
        supports_colibri_v1 := true, supports_colibri_v2 := true }
      "abcd" "ep-9") = .ok (buildColibriV1Allocate "abcd") :=
  (C3_dialect_selection
    { bridge_jid := some "jvb@auth.meet.jitsi",
      supports_colibri_v1 := true, supports_colibri_v2 := true }
    "abcd" "ep-9").1 (by decide)

/-! ## Claim C9 — `check_secret` and which endpoints call it

`check_secret(header)` raises 401 when `EXPECTED_SECRET` is truthy and
the header differs.  Every §6 handler in `app.py` invokes it — except
`GET /health`, whose handler takes no `x_auth_token` parameter and never
calls `check_secret`. -/

/-- The §6 control-plane endpoints. -/
inductive Endpoint
  | health
  | postRecordings
  | getRecording
  | deleteRecording
  | refreshRecording
  | testJoinConference
  | apiRecordStart
  | apiRecordStop
  deriving DecidableEq, Repr

/-- Whether the endpoint's handler invokes `check_secret` (read off each
route in `app.py`; only `health` does not). -/
def checksAuth : Endpoint → Bool
  | .health => false
  | _ => true

/-- `check_secret(header_val)`: `some 401` models the raised
`HTTPException(401)`; `EXPECTED_SECRET` (`RECORDER_API_SECRET`) and the
header are optional strings, with Python truthiness on the secret. -/
def check_secret (expected header : Option String) : Option Nat :=
  if pyTruthyOptStr expected ∧ header ≠ expected then some 401 else none

/-- The 401-or-pass outcome of a request to an endpoint. -/
def authResult (e : Endpoint) (expected header : Option String) : Option Nat :=
  if checksAuth e then check_secret expected header else none

/-- C9 counterexample: with the secret configured and no (or a wrong)
token, `GET /health` is not rejected — its handler never consults the
secret — while the other endpoints do return 401.  This falsifies the
claim's "including GET /health". -/
theorem C9_counterexample :
    authResult Endpoint.health (some "s3cret") none = none
    ∧ authResult Endpoint.health (some "s3cret") (some "wrong") = none
    ∧ authResult Endpoint.postRecordings (some "s3cret") none = some 401 := by
  refine ⟨rfl, rfl, rfl⟩

/-- C9 (amended): when the secret is set (non-empty), every §6 endpoint
except `GET /health` rejects a missing or differing `X-Auth-Token` with
401, and `GET /health` never returns 401; when the secret is unset no
endpoint rejects with 401, whatever the header. -/
theorem C9_auth (e : Endpoint) (expected header : Option String) :
    (e ≠ Endpoint.health → pyTruthyOptStr expected = true → header ≠ expected →
      authResult e expected header = some 401)
    ∧ (expected = none → authResult e expected header = none)
    ∧ authResult Endpoint.health expected header = none := by
  refine ⟨?_, ?_, rfl⟩
  · intro hne hsec hdiff
    have hc : checksAuth e = true := by
      cases e <;> first | rfl | exact absurd rfl hne
    unfold authResult check_secret
    rw [hc]
    simp [hsec, hdiff]
  · intro hnone
    subst hnone
    unfold authResult check_secret
    cases checksAuth e <;> simp [pyTruthyOptStr]

/-- C9 witness: concrete instantiation of the amended theorem. -/
theorem C9_auth_witness :
    authResult Endpoint.deleteRecording (some "k") (some "bad") = some 401 :=
  (C9_auth Endpoint.deleteRecording (some "k") (some "bad")).1
    (by decide) (by decide) (by decide)

/-! ## `app.py` — orchestrator state (`RecordingState`), sessions, jobs -/

/-- The capture job's lifecycle, as reported by `FFmpegJob.status()`:
the subprocess is external, so a freshly spawned job reports `running`
and `stop()` moves a running job to `exited`. -/
inductive JobStatus
  | not_started
  | running
  | exited
  deriving DecidableEq, Repr

/-- An `FFmpegJob`: command vector, working directory, manifest, status,
log ring. -/
structure Job where
  command : List String
  workdir : String
  manifest : Manifest
  status : JobStatus := .not_started
  logs : List String := []
  deriving DecidableEq, Repr

/-- `FFmpegJob.start()`: the subprocess is spawned; `status()` then
reports `running`. -/
def Job.start (j : Job) : Job :=
  { j with status := .running }

/-- `FFmpegJob.stop()`: terminate (then kill) the subprocess when it is
alive; a job that never started stays `not_started`. -/
def Job.stop (j : Job) : Job :=
  { j with status := match j.status with
                     | .running => .exited
                     | s => s }

/-- The `session_meta` dict attached to a recording by
`resolve_inputs_from_request`. -/
structure SessionMeta where
  auto_discovered : Bool := false
  room : Option String := none
  participant_count : Nat := 0
  via_xmpp : Bool := false
  bridge_jid : Option String := none
  endpoint_ids : List String := []
  session_id : Option String := none
  deriving DecidableEq, Repr

/-- The global `RecordingState`: `jobs`, `sessions` and
`room_to_recording`. -/
structure RecState where
  jobs : List (String × Job) := []
  sessions : List (String × SessionMeta) := []
  room_to_recording : List (String × String) := []
  deriving DecidableEq, Repr

/-- `RecordingState.add(job, session_meta)`: store the job under its id;
when a session dict is given, store it too and, when it names a truthy
room, map the room to the recording id. -/
def RecState.add (st : RecState) (recId : String) (job : Job)
    (meta : Option SessionMeta) : RecState :=
  let st1 := { st with jobs := upsert st.jobs recId job }
  match meta with
  | none => st1
  | some m =>
    let st2 := { st1 with sessions := upsert st1.sessions recId m }
    match m.room with
    | some room =>
      if room ≠ "" then
        { st2 with room_to_recording := upsert st2.room_to_recording room recId }
      else st2
    | none => st2

/-- `RecordingState.remove(rec_id)`: delete the first room mapped to the
recording, then the session entry, then the job entry. -/
def RecState.remove (st : RecState) (recId : String) : RecState :=
  let rooms :=
    match st.room_to_recording.find? (fun rr => rr.2 == recId) with
    | none => st.room_to_recording
    | some rr => eraseKey st.room_to_recording rr.1
  { jobs := eraseKey st.jobs recId
    sessions := eraseKey st.sessions recId
    room_to_recording := rooms }

/-- Module-level configuration of `app.py` read from the environment. -/
structure Env where
  xmpp_enabled : Bool := false
  simulation_mode : Bool := false
  recordings_root : String := "/recordings/ffmpeg"
  expected_secret : Option String := none
  deriving DecidableEq, Repr

theorem lookup_mem {β : Type} {m : List (String × β)} {k : String} {v : β}
    (h : m.lookup k = some v) : (k, v) ∈ m := by
  induction m with
  | nil => simp [List.lookup] at h
  | cons e rest ih =>
    by_cases hk : k = e.1
    · have : (k == e.1) = true := by simp [hk]
      rw [List.lookup, this] at h
      simp only [Option.some_inj] at h
      subst hk
      rw [← h]
      exact List.mem_cons_self _ _
    · have : (k == e.1) = false := by
        simp only [beq_eq_false_iff_ne, ne_eq]
        exact hk
      rw [List.lookup, this] at h
      exact List.mem_cons_of_mem _ (ih h)

/-! ## Claim C8 — `stop_and_release` ordering

`stop_and_release(rec_id, app_state)` in `app.py` (lines 374–412):
stop the job and finalise its manifest (the rewrite is wrapped in
`try/except: pass`), release the allocation (XMPP per-endpoint when
`via_xmpp` and XMPP is enabled and the bot is ready with a bridge, else
HTTP when a truthy `session_id` exists; both release paths swallow their
exceptions), and finally `state.remove(rec_id)`. -/

/-- Observable steps of `stop_and_release`, in emission order.  `ok`
flags model a swallowed failure of the corresponding attempt. -/
inductive StopEvent
  | stoppedJob (recId : String)
  | wroteManifest (recId : String) (ok : Bool)
  | releasedXmpp (room : String) (endpointIds : List String) (ok : Bool)
  | releasedHttp (sessionId : String) (ok : Bool)
  | removedTables (recId : String)
  deriving DecidableEq, Repr

/-- `stop_and_release`.  `app_state_present` models the optional
`app_state` argument; `endedAt` is the wall clock read for `ended_at`;
`manifestWriteOk`/`releaseOk` model whether the swallowed-failure steps
succeed. -/
def stop_and_release (env : Env) (app_state_present : Bool)
    (bot : Option Bot) (st : RecState) (recId : String) (endedAt : String)
    (manifestWriteOk releaseOk : Bool) : RecState × List StopEvent :=
  let job? := st.jobs.lookup recId
  let meta? := st.sessions.lookup recId
  let step1 : RecState × List StopEvent :=
    match job? with
    | none => (st, [])
    | some job =>
      let stopped := Job.stop job
      let job2 := { stopped with manifest :=
        { stopped.manifest with
            ended_at := some endedAt,
            logs_tail := some job.logs } }
      ({ st with jobs := upsert st.jobs recId job2 },
       [StopEvent.stoppedJob recId, StopEvent.wroteManifest recId manifestWriteOk])
  let releaseEvents : List StopEvent :=
    match meta? with
    | none => []
    | some meta =>
      if meta.via_xmpp ∧ env.xmpp_enabled ∧ app_state_present then
        match bot with
        | some b =>
          if b.ready ∧ pyTruthyOptStr b.bridge_jid then
            [StopEvent.releasedXmpp (meta.room.getD "unknown")
              meta.endpoint_ids releaseOk]
          else []
        | none => []
      else if pyTruthyOptStr meta.session_id then
        [StopEvent.releasedHttp (pyStrOptS meta.session_id) releaseOk]
      else []
  (step1.1.remove recId,
   step1.2 ++ releaseEvents ++ [StopEvent.removedTables recId])

theorem lookup_roomErase_ne (m : List (String × String)) (recId : String)
    (huniq : ∀ r1 r2 : String, (r1, recId) ∈ m → (r2, recId) ∈ m → r1 = r2)
    (k : String) :
    ¬ ((match m.find? (fun rr : String × String => rr.2 == recId) with
        | none => m
        | some rr => eraseKey m rr.1).lookup k = some recId) := by
  cases hf : m.find? (fun rr : String × String => rr.2 == recId) with
  | none =>
    intro hl
    have hmem := lookup_mem hl
    have hno := List.find?_eq_none.mp hf (k, recId) hmem
    simp at hno
  | some rr =>
    intro hl
    have hmem : (k, recId) ∈ eraseKey m rr.1 := lookup_mem hl
    have hsplit := List.mem_filter.mp hmem
    have hkne : ¬ k = rr.1 := by simpa using hsplit.2
    have hrrmem : rr ∈ m := List.mem_of_find?_eq_some hf
    have hrrval : rr.2 = recId := by
      have := List.find?_some hf
      simpa using this
    have hrrmem2 : (rr.1, recId) ∈ m := by
      rw [← hrrval]
      simpa using hrrmem
    exact hkne (huniq k rr.1 hsplit.1 hrrmem2)

/-- C8: for a recording holding both a job and a session entry, with the
XMPP stack up (bot ready, bridge discovered), `stop_and_release` emits,
in this order: job termination, manifest rewrite (with `ended_at` and the
log tail), one release attempt — per-endpoint XMPP release when
`via_xmpp`, else HTTP release when a truthy `session_id` exists — and
table removal; this order and the final removal hold for every outcome of
the manifest write and of the release, and afterwards neither the job
table nor the session table contains the recording ID, and no room maps
to it (given that at most one room did). -/
theorem C8_stop_ordering (env : Env) (b : Bot) (st : RecState)
    (recId endedAt : String) (w r : Bool) (job : Job) (meta : SessionMeta)
    (hjob : st.jobs.lookup recId = some job)
    (hmeta : st.sessions.lookup recId = some meta)
    (hxmpp : env.xmpp_enabled = true)
    (hready : b.ready = true)
    (hbridge : pyTruthyOptStr b.bridge_jid = true)
    (huniq : ∀ r1 r2 : String, (r1, recId) ∈ st.room_to_recording →
      (r2, recId) ∈ st.room_to_recording → r1 = r2) :
    ((stop_and_release env true (some b) st recId endedAt w r).2 =
      [StopEvent.stoppedJob recId, StopEvent.wroteManifest recId w] ++
      (if meta.via_xmpp then
        [StopEvent.releasedXmpp (meta.room.getD "unknown") meta.endpoint_ids r]
       else if pyTruthyOptStr meta.session_id then
        [StopEvent.releasedHttp (pyStrOptS meta.session_id) r]
       else []) ++
      [StopEvent.removedTables recId])
    ∧ ((stop_and_release env true (some b) st recId endedAt w
        r).1.jobs.lookup recId = none)
    ∧ ((stop_and_release env true (some b) st recId endedAt w
        r).1.sessions.lookup recId = none)
    ∧ (∀ room, ¬ ((stop_and_release env true (some b) st recId endedAt w
        r).1.room_to_recording.lookup room = some recId)) := by
  unfold stop_and_release
  simp only [hjob, hmeta]
  refine ⟨?_, ?_, ?_, ?_⟩
  · cases hv : meta.via_xmpp with
    | true => simp [hxmpp, hready, hbridge]
    | false => simp
  · exact lookup_eraseKey_self _ recId
  · exact lookup_eraseKey_self _ recId
  · intro room
    exact lookup_roomErase_ne st.room_to_recording recId huniq room

/-- Concrete job used by the C8 witness. -/
def c8Job : Job :=
  { command := ["ffmpeg"], workdir := "/recordings/ffmpeg/r1/t0",
    manifest := build_manifest "r1" [] "/recordings/ffmpeg/r1/t0" "rec-1"
      false none "t0", status := .running }

/-- Concrete session entry used by the C8 witness. -/
def c8Meta : SessionMeta :=
  { via_xmpp := true, room := some "r1", endpoint_ids := ["e1"] }

/-- Concrete table used by the C8 witness. -/
def c8State : RecState :=
  { jobs := [("rec-1", c8Job)], sessions := [("rec-1", c8Meta)],
    room_to_recording := [("r1", "rec-1")] }

/-- C8 witness: concrete instantiation of the ordering theorem. -/
theorem C8_stop_ordering_witness :
    ((stop_and_release { xmpp_enabled := true } true
        (some { ready := true, bridge_jid := some "jvb@auth.meet.jitsi" })
        c8State "rec-1" "t1" true true).2 =
      [StopEvent.stoppedJob "rec-1", StopEvent.wroteManifest "rec-1" true,
       StopEvent.releasedXmpp "r1" ["e1"] true,
       StopEvent.removedTables "rec-1"])
    ∧ ((stop_and_release { xmpp_enabled := true } true
        (some { ready := true, bridge_jid := some "jvb@auth.meet.jitsi" })
        c8State "rec-1" "t1" true true).1.jobs.lookup "rec-1" = none) := by
  have h := C8_stop_ordering { xmpp_enabled := true }
    { ready := true, bridge_jid := some "jvb@auth.meet.jitsi" }
    c8State "rec-1" "t1" true true c8Job c8Meta
    (by decide) (by decide) rfl rfl (by decide)
    (by
      intro r1 r2 h1 h2
      simp only [c8State, List.mem_singleton, Prod.mk.injEq] at h1 h2
      rw [h1.1, h2.1])
  refine ⟨h.1.trans (by decide), h.2.1⟩

/-! ## Claim C1 — `handle_participant_change`

Lines 76–128 of `app.py`.  After stopping the current segment, the
handler tries to reach the application through `FastAPI._instances[0] if
hasattr(FastAPI, '_instances') else None`.  The `FastAPI` class defines
no attribute `_instances` (nothing in the source ever sets one), so
`hasattr` is `False`, `app_instance` is always `None`, and the handler
logs "Cannot access bot" and returns — after having stopped the ffmpeg
job and without touching any table. -/

/-- Truth value of `hasattr(FastAPI, '_instances')`: the `FastAPI` class
carries no such attribute, so this is `false` on every run. -/
def fastapi_has_instances : Bool := false

/-- Observable steps of `handle_participant_change`. -/
inductive DynEvent
  | stoppedSegment (recId : String)
  | botUnreachable
  | fullyStopped (recId : String)
  | startedSegment (recId : String) (dir : String)
  deriving DecidableEq, Repr

/-- Convert a tracker entry into the participant dict shape consumed by
`build_manifest` / `build_ffmpeg_command` (in Python they are the same
dict). -/
def ForwarderEntry.toParticipant (e : ForwarderEntry) : Participant :=
  { id := e.id, name := e.name, jid := some e.jid, rtp_url := e.rtp_url,
    ssrc := e.ssrc, forwarder := .tracked e.forwarder }

/-- `handle_participant_change(room, action, participant_jid)`.  The
`ts` argument is the wall clock used both for the fresh segment directory
and the new manifest's `started_at`; `endedAt`/`manifestWriteOk`/
`releaseOk` feed the full-stop path. -/
def handle_participant_change (env : Env) (bot : Option Bot) (st : RecState)
    (room action participant_jid ts endedAt : String)
    (manifestWriteOk releaseOk : Bool) : RecState × List DynEvent :=
  match st.room_to_recording.lookup room with
  | none => (st, [])
  | some recId =>
    match st.jobs.lookup recId with
    | none => (st, [])
    | some job =>
      if job.status ≠ .running then (st, [])
      else
        let st1 := { st with jobs := upsert st.jobs recId (Job.stop job) }
        if fastapi_has_instances = false then
          (st1, [DynEvent.stoppedSegment recId, DynEvent.botUnreachable])
        else
          match bot with
          | none => (st1, [DynEvent.stoppedSegment recId, DynEvent.botUnreachable])
          | some b =>
            let participants := (b.get_participants_with_forwarders room).map
              ForwarderEntry.toParticipant
            if participants = [] then
              ((stop_and_release env true (some b) st1 recId endedAt
                  manifestWriteOk releaseOk).1,
               [DynEvent.stoppedSegment recId, DynEvent.fullyStopped recId])
            else
              let dir := env.recordings_root ++ "/" ++ room ++ "/" ++ ts
              let mix := job.manifest.mix
              let manifest := build_manifest room participants dir recId mix
                none ts
              let cmd := build_ffmpeg_command room participants dir mix
              let newJob := Job.start
                { command := cmd, workdir := dir, manifest := manifest }
              ({ st1 with jobs := upsert st1.jobs recId newJob },
               [DynEvent.stoppedSegment recId,
                DynEvent.startedSegment recId dir])

/-- The running recording used to exhibit the C1 failure. -/
def c1Job : Job :=
  { command := ["ffmpeg"], workdir := "/recordings/ffmpeg/r4/t0",
    manifest := build_manifest "r4"
      [{ id := "p1", rtp_url := "rtp://127.0.0.1:50000" }]
      "/recordings/ffmpeg/r4/t0" "rec-1" false none "t0",
    status := .running }

/-- The orchestrator table used to exhibit the C1 failure. -/
def c1State : RecState :=
  { jobs := [("rec-1", c1Job)],
    sessions := [("rec-1", { via_xmpp := true, room := some "r4",
                             endpoint_ids := ["p1"] })],
    room_to_recording := [("r4", "rec-1")] }

/-- A bot that does track two forwarder-carrying participants for the
room, so the claim would demand a restarted two-input segment. -/
def c1Bot : Bot :=
  { ready := true, bridge_jid := some "jvb@auth.meet.jitsi",
    conference_participants :=
      [("r4",
        [("p1", { jid := "r4@muc.meet.jitsi/p1",
                  ssrcs := [("audio", { ssrc := 11 })],
                  forwarder := some { ip := some "10.0.0.5",
                                      port := some 50000,
                                      endpoint_id := some "p1" } }),
         ("p2", { jid := "r4@muc.meet.jitsi/p2",
                  ssrcs := [("audio", { ssrc := 22 })],
                  forwarder := some { ip := some "10.0.0.5",
                                      port := some 50002,
                                      endpoint_id := some "p2" } })])] }

/-- C1 (code_bug): delivering a participant-change event for room `r4`,
which has a running recording and two discoverable participants, stops
the capture job and then returns at the unreachable-application guard:
no new segment is started, the recording is not removed, and the stopped
job stays in the tables under the same recording ID.  The spec (and the
handler's own docstring, "Restarts recording with updated participant
list") requires a restarted segment instead. -/
theorem C1_code_bug :
    (handle_participant_change { xmpp_enabled := true } (some c1Bot) c1State
        "r4" "joined" "r4@muc.meet.jitsi/p2" "t1" "t1" true true).2 =
      [DynEvent.stoppedSegment "rec-1", DynEvent.botUnreachable]
    ∧ (handle_participant_change { xmpp_enabled := true } (some c1Bot) c1State
        "r4" "joined" "r4@muc.meet.jitsi/p2" "t1" "t1" true
        true).1.jobs.lookup "rec-1" = some (Job.stop c1Job)
    ∧ (handle_participant_change { xmpp_enabled := true } (some c1Bot) c1State
        "r4" "joined" "r4@muc.meet.jitsi/p2" "t1" "t1" true
        true).1.room_to_recording.lookup "r4" = some "rec-1"
    ∧ (handle_participant_change { xmpp_enabled := true } (some c1Bot) c1State
        "r4" "joined" "r4@muc.meet.jitsi/p2" "t1" "t1" true
        true).1.sessions = c1State.sessions := by
  refine ⟨by decide, by decide, by decide, by decide⟩

/-! ## Claim C10 — `resolve_inputs_from_request` and `POST /recordings`

`resolve_inputs_from_request` (lines 238–371 of `app.py`) returns
`body["inputs"]` verbatim whenever the key is present — also when its
value is the empty list — and only otherwise attempts auto-discovery,
XMPP allocation, or the HTTP Colibri fallback.  `start_recording` then
builds the manifest and command from the resolved list and replies with
the default `JSONResponse` status 200. -/

/-- A normalised entry of `body["participants"]` (the source accepts
dicts with an `id` or raw strings and normalises them to
`{id, name}`; the embedding starts from the normalised list). -/
structure EndpointReq where
  id : String
  name : String := ""
  deriving DecidableEq, Repr

/-- The POST body of `/recordings`: `room` optional, `inputs` optional
(`some` models key presence, so `some []` is an explicit empty list),
`participants` defaulting to `[]`, `use_colibri` defaulting to `True`,
`mix` defaulting to `False`. -/
structure RequestBody where
  room : Option String := none
  mix : Bool := false
  inputs : Option (List Participant) := none
  participants : List EndpointReq := []
  use_colibri : Bool := true
  deriving Repr

/-- The forwarder sub-dict of one `bot.allocate_forwarder` reply
(`alloc.get("forwarder") or {}` and its `.get` reads). -/
structure XmppAllocResult where
  ip : Option String := none
  port : Option Nat := none
  pt : Option Nat := none
  ssrc : Option Nat := none
  deriving DecidableEq, Repr

/-- One endpoint of an HTTP Colibri fallback reply. -/
structure HttpEndpoint where
  id : Option String := none
  endpoint : Option String := none
  name : Option String := none
  audio : HttpEndpointAudio := {}
  deriving DecidableEq, Repr

/-- The body of an HTTP Colibri fallback reply. -/
structure HttpAllocation where
  session_id : Option String := none
  sessionId : Option String := none
  endpoints : List HttpEndpoint := []
  deriving DecidableEq, Repr

/-- The external calls `resolve_inputs_from_request` can attempt; the
claim is that none of them happens when `inputs` is supplied. -/
inductive ResolveEffect
  | autoDiscovery (room : String)
  | simulatorAllocate
  | xmppAllocate (endpointId : String)
  | httpAllocate
  deriving DecidableEq, Repr

/-- Replies of the external collaborators (simulator, bridge IQ
round-trips, HTTP Colibri service), supplied as oracles. -/
structure Oracles where
  simAlloc : List Participant × SessionMeta := ([], {})
  lateBridgeJid : Option String := none
  xmppAlloc : String → XmppAllocResult := fun _ => {}
  httpAlloc : Option HttpAllocation := none

/-- The HTTP Colibri fallback tail of `resolve_inputs_from_request`
(lines 344–369): `none` for `orc.httpAlloc` models an exception from
`build_colibri2_from_env()` or the POST itself (surfacing as a 500
through the framework). -/
def httpFallback (endpoint_objects : List EndpointReq) (orc : Oracles) :
    Except Nat (List Participant × Option SessionMeta) :=
  match orc.httpAlloc with
  | none => .error 500
  | some allocation =>
    let session_id := pyOrOpt allocation.session_id allocation.sessionId
    let participants := allocation.endpoints.filterMap (fun ep =>
      match ep.audio.port with
      | none => none
      | some p =>
        if p = 0 then none
        else
          let ip := pyOrStr ep.audio.ip (pyOrStr ep.audio.host "127.0.0.1")
          let ep_id := pyStrOptS (pyOrOpt (pyOrOpt ep.id ep.endpoint) ep.name)
          some ({ id := ep_id,
                  name := (match endpoint_objects.find?
                             (fun eo => eo.id == ep_id) with
                           | some eo => eo.name
                           | none => ""),
                  rtp_url := "rtp://" ++ ip ++ ":" ++ toString p,
                  ssrc := ep.audio.ssrc,
                  forwarder := .httpAudio ep.audio } : Participant))
    if participants = [] then .error 502
    else .ok (participants, some { session_id := session_id })

/-- `resolve_inputs_from_request(body, app_state)`, returning the
resolved `(participants, session_meta)` (or the raised HTTP status) plus
the list of external attempts made. -/
def resolve_inputs (env : Env) (bot : Option Bot) (orc : Oracles)
    (body : RequestBody) :
    Except Nat (List Participant × Option SessionMeta) × List ResolveEffect :=
  if body.inputs.isSome then (.ok (body.inputs.getD [], none), [])
  else
    let autoTry : Option (List Participant × SessionMeta) × List ResolveEffect :=
      match body.room, bot with
      | some room, some b =>
        if room ≠ "" ∧ env.xmpp_enabled ∧ ¬ env.simulation_mode ∧
            b.ready ∧ b.is_in_conference room then
          let auto := b.get_participants_with_forwarders room
          ((if auto ≠ [] then
              some (auto.map ForwarderEntry.toParticipant,
                { auto_discovered := true, room := some room,
                  participant_count := auto.length, via_xmpp := true })
            else none),
           [ResolveEffect.autoDiscovery room])
        else (none, [])
      | _, _ => (none, [])
    match autoTry.1 with
    | some res => (.ok (res.1, some res.2), autoTry.2)
    | none =>
      let endpoint_objects := body.participants
      if body.use_colibri ∧ endpoint_objects ≠ [] then
        if env.simulation_mode then
          (.ok (orc.simAlloc.1, some orc.simAlloc.2),
           autoTry.2 ++ [ResolveEffect.simulatorAllocate])
        else if env.xmpp_enabled ∧ bot.isSome then
          match bot with
          | none => (.error 500, autoTry.2)
          | some b =>
            if ¬ b.ready then (.error 503, autoTry.2)
            else
              let bridge := if pyTruthyOptStr b.bridge_jid then b.bridge_jid
                            else orc.lateBridgeJid
              if ¬ pyTruthyOptStr bridge then (.error 502, autoTry.2)
              else
                let room := (body.room).getD "unknown"
                let outs : List Participant := endpoint_objects.map (fun ep =>
                  let fwd := orc.xmppAlloc ep.id
                  { id := ep.id, name := ep.name,
                    rtp_url := "rtp://" ++ pyOrStr fwd.ip "127.0.0.1" ++ ":" ++
                      toString (pyOrNat fwd.port 50000),
                    ssrc := fwd.ssrc, pt := some (pyOrNat fwd.pt 111),
                    bridge_jid := bridge })
                (.ok (outs, some { bridge_jid := bridge, room := some room,
                                   endpoint_ids := (endpoint_objects.map (fun ep => ep.id)),
                                   via_xmpp := true }),
                 autoTry.2 ++ endpoint_objects.map
                   (fun ep => ResolveEffect.xmppAllocate ep.id))
        else
          (httpFallback endpoint_objects orc,
           autoTry.2 ++ [ResolveEffect.httpAllocate])
      else (.error 400, autoTry.2)

/-- The successful reply of `POST /recordings`. -/
structure StartResult where
  code : Nat
  recId : String
  manifest : Manifest
  command : List String
  state : RecState
  effects : List ResolveEffect

/-- `start_recording` (`POST /recordings`): auth check, room check,
input resolution, manifest + command construction, job start, state add,
and a `JSONResponse` with the default status 200.  `recId` stands for the
fresh UUID and `ts` for the wall clock. -/
def start_recording (env : Env) (bot : Option Bot) (orc : Oracles)
    (body : RequestBody) (header : Option String) (recId ts : String)
    (st : RecState) : Except Nat StartResult :=
  match check_secret env.expected_secret header with
  | some code => .error code
  | none =>
    match body.room with
    | none => .error 400
    | some room =>
      if room = "" then .error 400
      else
        match resolve_inputs env bot orc body with
        | (.error code, _) => .error code
        | (.ok (participants, session_meta), effects) =>
          let out_dir := env.recordings_root ++ "/" ++ room ++ "/" ++ ts
          let manifest := build_manifest room participants out_dir recId
            body.mix
            (match session_meta with
             | some m => m.session_id
             | none => none) ts
          let cmd := build_ffmpeg_command room participants out_dir body.mix
          let job := Job.start
            { command := cmd, workdir := out_dir, manifest := manifest }
          .ok { code := 200, recId := recId, manifest := manifest,
                command := cmd, state := st.add recId job session_meta,
                effects := effects }

/-- The C10 body: a room plus the key `inputs` bound to the empty list. -/
def c10Body (room : String) (mix : Bool) : RequestBody :=
  { room := some room, mix := mix, inputs := some [] }

/-- C10: a `POST /recordings` body carrying a room and `"inputs": []` is
not rejected: resolution returns the empty list verbatim with no
auto-discovery, XMPP or HTTP attempt (for every environment, bot state
and oracle), and the request succeeds with status 200, a manifest whose
participant list is empty, and a command vector that is exactly the five
fixed flags — no `-i` inputs and no output paths. -/
theorem C10_empty_inputs (env : Env) (bot : Option Bot) (orc : Oracles)
    (room : String) (header : Option String) (recId ts : String)
    (st : RecState) (mix : Bool)
    (hroom : room ≠ "")
    (hauth : check_secret env.expected_secret header = none) :
    (resolve_inputs env bot orc (c10Body room mix) =
      (.ok ([], none), []))
    ∧ ∃ res, start_recording env bot orc (c10Body room mix) header recId ts st =
        .ok res
      ∧ res.code = 200
      ∧ res.manifest.participants = []
      ∧ res.command = ["ffmpeg", "-hide_banner", "-nostats", "-loglevel", "info"]
      ∧ res.effects = [] := by
  have hres : resolve_inputs env bot orc (c10Body room mix) =
      (.ok ([], none), []) := rfl
  refine ⟨hres, ?_⟩
  have h1 : start_recording env bot orc (c10Body room mix) header recId ts st =
      .ok { code := 200, recId := recId,
            manifest := (build_manifest room []
              (env.recordings_root ++ "/" ++ room ++ "/" ++ ts) recId mix
              none ts),
            command := (build_ffmpeg_command room []
              (env.recordings_root ++ "/" ++ room ++ "/" ++ ts) mix),
            state := (st.add recId
              (Job.start { command := (build_ffmpeg_command room []
                             (env.recordings_root ++ "/" ++ room ++ "/" ++ ts) mix),
                           workdir := env.recordings_root ++ "/" ++ room ++ "/" ++ ts,
                           manifest := (build_manifest room []
                             (env.recordings_root ++ "/" ++ room ++ "/" ++ ts) recId mix
                             none ts) }) none),
            effects := [] } := by
    unfold start_recording
    rw [hauth]
    simp only [c10Body]
    rw [if_neg hroom]
    exact rfl
  refine ⟨_, h1, rfl, rfl, ?_, rfl⟩
  simp [build_ffmpeg_command]

/-- C10 witness: concrete instantiation. -/
theorem C10_empty_inputs_witness :
    ∃ res, start_recording {} none {} (c10Body "r1" false) none "rec-1" "t0"
        {} = .ok res
      ∧ res.code = 200
      ∧ res.manifest.participants = []
      ∧ res.command = ["ffmpeg", "-hide_banner", "-nostats", "-loglevel", "info"] := by
  obtain ⟨hres, res, h1, h2, h3, h4, h5⟩ :=
    C10_empty_inputs {} none {} "r1" none "rec-1" "t0" {} false
      (by decide) rfl
  exact ⟨res, h1, h2, h3, h4⟩

/-! ## `jingle_sdp.py` — Jingle offer → SDP (`jingle_to_sdp`)

The offer structures mirror the XML read by the source: a content may
lack its description or transport (then it is skipped), attributes read
with `.get` defaults are options, element text read into a Python
truthiness test is a plain string with `""` for empty/missing text. -/

/-- One `rtcp-fb` element (`type`, optional `subtype`). -/
structure RtcpFb where
  typ : String
  subtype : Option String := none
  deriving DecidableEq, Repr

/-- One `payload-type` element with its `parameter` and `rtcp-fb`
children. -/
structure JinglePayloadType where
  id : String
  name : String
  clockrate : String
  channels : Option String := none
  parameters : List (String × String) := []
  rtcpFbs : List RtcpFb := []
  deriving DecidableEq, Repr

/-- The DTLS `fingerprint` element: `hash` and `setup` attributes and the
element text (`value`; `""` models empty text, which Python treats as a
missing fingerprint). -/
structure JingleFingerprint where
  hash : String := "sha-256"
  setup : String := "actpass"
  value : String
  deriving DecidableEq, Repr

/-- The ICE-UDP `transport` element (`""` models a missing `ufrag`/`pwd`
attribute, matching the Python truthiness test). -/
structure IceTransport where
  ufrag : String := ""
  pwd : String := ""
  fingerprint : Option JingleFingerprint := none
  deriving DecidableEq, Repr

/-- The RTP `description` element. -/
structure RtpDescription where
  media : String
  payloadTypes : List JinglePayloadType := []
  deriving DecidableEq, Repr

/-- One Jingle `content` element. -/
structure JingleContent where
  name : String
  senders : Option String := none
  description : Option RtpDescription := none
  transport : Option IceTransport := none
  deriving DecidableEq, Repr

/-- A Jingle offer (the `jingle` element's `content` children). -/
structure JingleOffer where
  contents : List JingleContent := []
  deriving DecidableEq, Repr

/-- Codec names excluded from the `m=` format list and the rtpmap loop. -/
def isSkippedCodec (n : String) : Bool :=
  n = "rtx" || n = "red" || n = "ulpfec"

/-- The SDP direction attribute derived from the Jingle `senders`
value. -/
def directionLine (senders : String) : String :=
  if senders = "both" then "a=sendrecv"
  else if senders = "initiator" then "a=recvonly"
  else if senders = "responder" then "a=sendonly"
  else "a=recvonly"

/-- The `a=rtpmap` (and optional `a=fmtp`) lines for one payload type;
codec names in the skip set produce nothing. -/
def rtpmapFmtpLines (pt : JinglePayloadType) : List String :=
  if isSkippedCodec pt.name then []
  else
    let base := "a=rtpmap:" ++ pt.id ++ " " ++ pt.name ++ "/" ++ pt.clockrate
    let rtpmap :=
      match pt.channels with
      | some c => if c ≠ "" ∧ c ≠ "1" then base ++ "/" ++ c else base
      | none => base
    let params := pt.parameters.filter (fun kv => kv.1 ≠ "" ∧ kv.2 ≠ "")
    let fmtp :=
      if params ≠ [] then
        ["a=fmtp:" ++ pt.id ++ " " ++
          String.intercalate ";" (params.map (fun kv => kv.1 ++ "=" ++ kv.2))]
      else []
    [rtpmap] ++ fmtp

/-- The `a=rtcp-fb` lines for one payload type (this loop does not skip
the rtx/red/ulpfec codecs in the source either). -/
def rtcpFbLines (pt : JinglePayloadType) : List String :=
  pt.rtcpFbs.map (fun fb =>
    match fb.subtype with
    | some s =>
      if s ≠ "" then "a=rtcp-fb:" ++ pt.id ++ " " ++ fb.typ ++ " " ++ s
      else "a=rtcp-fb:" ++ pt.id ++ " " ++ fb.typ
    | none => "a=rtcp-fb:" ++ pt.id ++ " " ++ fb.typ)

/-- The media-section lines for one content; a content lacking its
description or transport is skipped. -/
def contentLines (c : JingleContent) : List String :=
  match c.description with
  | none => []
  | some d =>
    match c.transport with
    | none => []
    | some t =>
      let fmtList := ((d.payloadTypes.filter
        (fun pt => !isSkippedCodec pt.name)).map (fun pt => pt.id))
      ["m=" ++ d.media ++ " 9 UDP/TLS/RTP/SAVPF " ++
        String.intercalate " " fmtList,
       "c=IN IP4 0.0.0.0"]
      ++ (if t.ufrag ≠ "" ∧ t.pwd ≠ "" then
            ["a=ice-ufrag:" ++ t.ufrag, "a=ice-pwd:" ++ t.pwd]
          else [])
      ++ (match t.fingerprint with
          | some fp =>
            if fp.value ≠ "" then
              ["a=fingerprint:" ++ fp.hash ++ " " ++ fp.value,
               "a=setup:" ++ fp.setup]
            else []
          | none => [])
      ++ ["a=mid:" ++ c.name, directionLine (c.senders.getD "both"),
          "a=rtcp-mux"]
      ++ d.payloadTypes.flatMap rtpmapFmtpLines
      ++ d.payloadTypes.flatMap rtcpFbLines

/-- The SDP lines of `jingle_to_sdp`: fixed session lines, the BUNDLE
group over all content names, then each content's media section. -/
def jingle_to_sdp_lines (j : JingleOffer) : List String :=
  ["v=0", "o=- 0 0 IN IP4 0.0.0.0", "s=-", "t=0 0"]
  ++ (if j.contents ≠ [] then
        ["a=group:BUNDLE " ++
          String.intercalate " " (j.contents.map (fun c => c.name))]
      else [])
  ++ j.contents.flatMap contentLines

/-- `jingle_to_sdp`: CRLF-joined with a trailing CRLF. -/
def jingle_to_sdp (j : JingleOffer) : String :=
  String.intercalate "\r\n" (jingle_to_sdp_lines j) ++ "\r\n"

/-! ## `jingle_sdp.py` — SDP parsing (`_parse_sdp_media_sections`) -/

/-- Split on CRLF terminators. -/
def splitCRLF : List Char → List (List Char)
  | [] => [[]]
  | '\r' :: '\n' :: rest => [] :: splitCRLF rest
  | c :: rest =>
    match splitCRLF rest with
    | [] => [[c]]
    | g :: gs => (c :: g) :: gs

/-- Python `str.splitlines()` restricted to the CRLF terminators the two
SDP producers in this development emit (a trailing terminator yields no
empty final line). -/
def splitlinesCRLF (s : String) : List String :=
  let parts := (splitCRLF s.toList).map String.mk
  match parts.getLast? with
  | some "" => parts.dropLast
  | _ => parts

/-- Strip a literal prefix, returning the remainder. -/
def strDropPrefix? (pre s : String) : Option String :=
  if pre.toList.isPrefixOf s.toList then
    some (String.mk (s.toList.drop pre.toList.length))
  else none

/-- A regex of the form `^pre(.+)` applied with `re.match`. -/
def parseAfterPrefix (pre line : String) : Option String :=
  match strDropPrefix? pre line with
  | some rest => if rest ≠ "" then some rest else none
  | none => none

/-- `^m=(audio|video) \d+ [A-Z/]+ (.*)` via `re.match`: media kind and
the format list remainder. -/
def parseMediaLine (line : String) : Option (String × String) :=
  let tryM (media : String) : Option (String × String) :=
    match strDropPrefix? ("m=" ++ media ++ " ") line with
    | none => none
    | some rest =>
      match strSplitOn rest ' ' with
      | port :: proto :: tailParts =>
        if port ≠ "" ∧ port.toList.all Char.isDigit ∧ proto ≠ "" ∧
            proto.toList.all (fun ch => ch.isUpper || ch = '/') ∧
            tailParts ≠ [] then
          some (media, String.intercalate " " tailParts)
        else none
      | _ => none
  match tryM "audio" with
  | some r => some r
  | none => tryM "video"

/-- Python `str.split()` on spaces, dropping empty fields (used for the
`m=` format list). -/
def pySplitWs (s : String) : List String :=
  (strSplitOn s ' ').filter (fun t => t ≠ "")

/-- Python `str.strip()` (whitespace). -/
def pyStrip (s : String) : String :=
  String.mk (((s.toList.dropWhile Char.isWhitespace).reverse.dropWhile
    Char.isWhitespace).reverse)

/-- `^a=fingerprint:([\w\-]+) (.+)`. -/
def parseFingerprintLine (line : String) : Option (String × String) :=
  match strDropPrefix? "a=fingerprint:" line with
  | none => none
  | some rest =>
    match strSplitOn rest ' ' with
    | alg :: tailParts =>
      let value := String.intercalate " " tailParts
      if alg ≠ "" ∧ alg.toList.all isWordChar ∧ tailParts ≠ [] ∧
          value ≠ "" then
        some (alg, value)
      else none
    | [] => none

/-- `^a=rtpmap:(\d+) ([\w\-]+)/(\d+)(?:/(\d+))?` (prefix-anchored, so
trailing characters are permitted, as with `re.match`). -/
def parseRtpmapLine (line : String) :
    Option (String × String × String × Option String) :=
  match strDropPrefix? "a=rtpmap:" line with
  | none => none
  | some rest =>
    let l := rest.toList
    let pt := l.takeWhile Char.isDigit
    if pt = [] then none
    else
      match l.dropWhile Char.isDigit with
      | ' ' :: r2 =>
        let nm := r2.takeWhile isWordChar
        if nm = [] then none
        else
          match r2.dropWhile isWordChar with
          | '/' :: r4 =>
            let clk := r4.takeWhile Char.isDigit
            if clk = [] then none
            else
              let chans :=
                match r4.dropWhile Char.isDigit with
                | '/' :: r6 =>
                  let d := r6.takeWhile Char.isDigit
                  if d = [] then none else some (String.mk d)
                | _ => none
              some (String.mk pt, String.mk nm, String.mk clk, chans)
          | _ => none
      | _ => none

/-- `^a=fmtp:(\d+) (.+)`. -/
def parseFmtpLine (line : String) : Option (String × String) :=
  match strDropPrefix? "a=fmtp:" line with
  | none => none
  | some rest =>
    let l := rest.toList
    let pt := l.takeWhile Char.isDigit
    if pt = [] then none
    else
      match l.dropWhile Char.isDigit with
      | ' ' :: r2 => if r2 = [] then none else some (String.mk pt, String.mk r2)
      | _ => none

/-- `^a=rtcp-fb:(\d+) ([\w\-]+)(?: ([\w\-]+))?`. -/
def parseRtcpFbLine (line : String) :
    Option (String × String × Option String) :=
  match strDropPrefix? "a=rtcp-fb:" line with
  | none => none
  | some rest =>
    let l := rest.toList
    let pt := l.takeWhile Char.isDigit
    if pt = [] then none
    else
      match l.dropWhile Char.isDigit with
      | ' ' :: r2 =>
        let ty := r2.takeWhile isWordChar
        if ty = [] then none
        else
          let sub :=
            match r2.dropWhile isWordChar with
            | ' ' :: r4 =>
              let st := r4.takeWhile isWordChar
              if st = [] then none else some (String.mk st)
            | _ => none
          some (String.mk pt, String.mk ty, sub)
      | _ => none

/-- `^a=extmap:(\d+) (.+)`. -/
def parseExtmapLine (line : String) : Option (String × String) :=
  match strDropPrefix? "a=extmap:" line with
  | none => none
  | some rest =>
    let l := rest.toList
    let eid := l.takeWhile Char.isDigit
    if eid = [] then none
    else
      match l.dropWhile Char.isDigit with
      | ' ' :: r2 => if r2 = [] then none else some (String.mk eid, String.mk r2)
      | _ => none

/-- The fmtp parameter dict: split on `;`, keep fields containing `=`,
split once on `=`, strip both sides. -/
def parseFmtpParams (s : String) : List (String × String) :=
  (strSplitOn s ';').foldl (fun acc p =>
    match strSplitOn p '=' with
    | k :: v1 :: vrest =>
      upsert acc (pyStrip k) (pyStrip (String.intercalate "=" (v1 :: vrest)))
    | _ => acc) []

/-- One payload entry of a parsed media section (`payloads[pt]`); keys
written by the rtpmap/fmtp/rtcp-fb lines are options or lists read back
with `.get` defaults. -/
structure ParsedPayload where
  name : Option String := none
  clockrate : Option String := none
  channels : Option String := none
  params : Option (List (String × String)) := none
  fbs : List RtcpFb := []
  deriving DecidableEq, Repr

/-- The fingerprint record initialised per media section
(`{'hash_alg': 'sha-256', 'setup': 'active', 'value': ''}`). -/
structure ParsedFingerprint where
  hash_alg : String := "sha-256"
  setup : String := "active"
  value : String := ""
  deriving DecidableEq, Repr

/-- One parsed media section. -/
structure MediaSection where
  payloads_order : List String := []
  payloads : List (String × ParsedPayload) := []
  extmaps : List (String × String) := []
  ufrag : String := ""
  pwd : String := ""
  fingerprint : ParsedFingerprint := {}
  deriving DecidableEq, Repr

/-- Parser state: the sections dict (keyed by media kind, insertion
ordered, overwritten on a repeated `m=` line) and `current_media`. -/
structure ParseState where
  sections : List (String × MediaSection) := []
  current : Option String := none
  deriving DecidableEq, Repr

/-- Mutate the section dict entry named by `current_media` (the source
mutates the dict value in place). -/
def updateCurrentSection (st : ParseState) (f : MediaSection → MediaSection) :
    ParseState :=
  match st.current with
  | none => st
  | some m =>
    { st with sections := (st.sections.map
        (fun e => if e.1 = m then (m, f e.2) else e)) }

/-- Mutate one payload entry, guarded by `if pt in s['payloads']`. -/
def updatePayload (s : MediaSection) (pt : String)
    (f : ParsedPayload → ParsedPayload) : MediaSection :=
  if (s.payloads.lookup pt).isSome then
    { s with payloads := (s.payloads.map
        (fun e => if e.1 = pt then (pt, f e.2) else e)) }
  else s

/-- One iteration of the parsing loop of `_parse_sdp_media_sections`,
with the source's check order: media line first, skip without a current
section, then the `elif` chain ufrag / pwd / fingerprint / setup /
rtpmap / fmtp / rtcp-fb / extmap. -/
def parseLineStep (st : ParseState) (line : String) : ParseState :=
  match parseMediaLine line with
  | some mf =>
    let pts := pySplitWs mf.2
    let fresh : MediaSection :=
      { payloads_order := pts,
        payloads := pts.foldl (fun acc pt => upsert acc pt {}) [] }
    { sections := upsert st.sections mf.1 fresh, current := some mf.1 }
  | none =>
    match st.current with
    | none => st
    | some _ =>
      if let some u := parseAfterPrefix "a=ice-ufrag:" line then
        updateCurrentSection st (fun s => { s with ufrag := u })
      else if let some pw := parseAfterPrefix "a=ice-pwd:" line then
        updateCurrentSection st (fun s => { s with pwd := pw })
      else if let some av := parseFingerprintLine line then
        updateCurrentSection st (fun s =>
          { s with fingerprint :=
              { s.fingerprint with hash_alg := av.1, value := av.2 } })
      else if let some su := parseAfterPrefix "a=setup:" line then
        updateCurrentSection st (fun s =>
          { s with fingerprint := { s.fingerprint with setup := su } })
      else if let some pn := parseRtpmapLine line then
        updateCurrentSection st (fun s => updatePayload s pn.1 (fun d =>
          { d with name := some pn.2.1, clockrate := some pn.2.2.1,
                   channels := (match pn.2.2.2 with
                                | some c => some c
                                | none => d.channels) }))
      else if let some pf := parseFmtpLine line then
        updateCurrentSection st (fun s => updatePayload s pf.1 (fun d =>
          { d with params := some (parseFmtpParams pf.2) }))
      else if let some pr := parseRtcpFbLine line then
        updateCurrentSection st (fun s => updatePayload s pr.1 (fun d =>
          { d with fbs := d.fbs ++ [{ typ := pr.2.1, subtype := pr.2.2 }] }))
      else if let some ex := parseExtmapLine line then
        updateCurrentSection st (fun s =>
          { s with extmaps := upsert s.extmaps ex.1 ex.2 })
      else st

/-- `_parse_sdp_media_sections(sdp_str)`. -/
def parse_sdp_media_sections (sdp : String) : List (String × MediaSection) :=
  ((splitlinesCRLF sdp).foldl parseLineStep {}).sections

/-! ## `jingle_sdp.py` — `sdp_to_jingle_accept` -/

/-- One `content` of the session-accept.  The source hardcodes
`name` as `"0"` for audio and `"1"` for video, `creator="initiator"`,
`senders="both"`, and always emits a fingerprint (the parsed section
always carries the key, with its initialised defaults). -/
structure AcceptContent where
  name : String
  creator : String
  senders : String
  media : String
  payloads : List JinglePayloadType
  extmaps : List (String × String)
  ufrag : String
  pwd : String
  fingerprint : ParsedFingerprint
  deriving DecidableEq, Repr

/-- The session-accept element. -/
structure JingleAccept where
  action : String
  sid : String
  initiator : String
  responder : String
  groupSemantics : String
  groupContentNames : List String
  contents : List AcceptContent
  deriving DecidableEq, Repr

/-- The payload element rebuilt from `section['payloads'][pt_id]` (the
key exists for every id in `payloads_order` by construction; missing
`name`/`clockrate` read back as `''`). -/
def acceptPayload (s : MediaSection) (ptId : String) : JinglePayloadType :=
  let d := (s.payloads.lookup ptId).getD {}
  { id := ptId,
    name := d.name.getD "",
    clockrate := d.clockrate.getD "",
    channels := d.channels,
    parameters := d.params.getD [],
    rtcpFbs := d.fbs }

/-- One accept content built from a parsed media section. -/
def acceptContent (ms : String × MediaSection) : AcceptContent :=
  { name := (if ms.1 = "audio" then "0" else "1"),
    creator := "initiator",
    senders := "both",
    media := ms.1,
    payloads := ms.2.payloads_order.map (acceptPayload ms.2),
    extmaps := ms.2.extmaps,
    ufrag := ms.2.ufrag,
    pwd := ms.2.pwd,
    fingerprint := ms.2.fingerprint }

/-- `sdp_to_jingle_accept(sdp_answer, session_id, initiator,
responder)`. -/
def sdp_to_jingle_accept (sdp_answer session_id initiator responder : String) :
    JingleAccept :=
  let sections := parse_sdp_media_sections sdp_answer
  { action := "session-accept",
    sid := session_id,
    initiator := initiator,
    responder := responder,
    groupSemantics := "BUNDLE",
    groupContentNames := sections.map
      (fun ms => if ms.1 = "audio" then "0" else "1"),
    contents := sections.map acceptContent }

/-- Modelled from the spec: the SDP answer that the out-of-scope media
stack derives from the offer before `sdp_to_jingle_accept` converts it
back (§4.F "set remote description; create answer; set local
description"; §4.A "setup forced to `active` when offer was `actpass`").
Embedded as the offer's SDP with every `a=setup:actpass` line answered
by `a=setup:active`. -/
def derive_sdp_answer (sdpOffer : String) : String :=
  String.intercalate "\r\n" ((splitlinesCRLF sdpOffer).map
    (fun l => if l = "a=setup:actpass" then "a=setup:active" else l)) ++ "\r\n"

/-! ## Claim C5 — the representative offer and the round trip -/

/-- Audio payload of the representative offer (Opus with fmtp parameters
and transport-cc feedback). -/
def c5AudioPayloads : List JinglePayloadType :=
  [{ id := "111", name := "opus", clockrate := "48000", channels := some "2",
     parameters := [("minptime", "10"), ("useinbandfec", "1")],
     rtcpFbs := [{ typ := "transport-cc" }] }]

/-- Video payload of the representative offer (VP8 with nack/pli and
ccm/fir feedback). -/
def c5VideoPayloads : List JinglePayloadType :=
  [{ id := "100", name := "VP8", clockrate := "90000",
     rtcpFbs := [{ typ := "nack" }, { typ := "nack", subtype := some "pli" },
                 { typ := "ccm", subtype := some "fir" }] }]

/-- A representative Jingle offer with one audio and one video content,
parameterised by the two mids, carrying ICE credentials and a DTLS
fingerprint with `setup="actpass"` on both transports. -/
def c5Offer (audioMid videoMid : String) : JingleOffer :=
  { contents :=
      [{ name := audioMid, senders := some "both",
         description := some { media := "audio", payloadTypes := c5AudioPayloads },
         transport := some { ufrag := "u1frag", pwd := "p1wd",
                             fingerprint := some { hash := "sha-256",
                                                   setup := "actpass",
                                                   value := "AA:BB:CC:DD:EE:FF:00:11" } } },
       { name := videoMid, senders := some "both",
         description := some { media := "video", payloadTypes := c5VideoPayloads },
         transport := some { ufrag := "u1frag", pwd := "p1wd",
                             fingerprint := some { hash := "sha-256",
                                                   setup := "actpass",
                                                   value := "AA:BB:CC:DD:EE:FF:00:11" } } }] }

/-- The full round trip of the claim: offer → `jingle_to_sdp` → derived
answer → `sdp_to_jingle_accept`. -/
def c5Roundtrip (audioMid videoMid : String) : JingleAccept :=
  sdp_to_jingle_accept
    (derive_sdp_answer (jingle_to_sdp (c5Offer audioMid videoMid)))
    "sid1" "room@muc.meet.jitsi/focus" "recorder@meet.jitsi"

/-- C5 counterexample: for the representative offer whose mids are
`audio` and `video` (classic Jitsi content names), the round-tripped
session-accept names its contents `0` and `1` — `sdp_to_jingle_accept`
hardcodes the content name by media kind and never reads `a=mid` (the
parser has no mid rule at all) — so the accept does not contain the
offer's mid set as content names, and its BUNDLE group ranges over
`0`/`1` instead. -/
theorem C5_counterexample :
    ((c5Roundtrip "audio" "video").contents.map (fun c => c.name)) = ["0", "1"]
    ∧ ((c5Offer "audio" "video").contents.map (fun c => c.name)) =
      ["audio", "video"]
    ∧ (c5Roundtrip "audio" "video").groupContentNames = ["0", "1"] := by
  refine ⟨by decide, by decide, by decide⟩

/-- C5 (amended): the session-accept always names its contents `0`
(audio) and `1` (video); for the representative offer whose mids are
exactly `0` and `1` the claimed preservation holds: the accept's content
names equal the offer's mid set, the BUNDLE group ranges over those
names, the payload-type IDs, ice-ufrag and ice-pwd agree with the
offer's, and the DTLS fingerprint comes back with `setup="active"` for
the offer's `actpass`, with the fingerprint value preserved. -/
theorem C5_roundtrip_preservation :
    ((c5Roundtrip "0" "1").contents.map (fun c => c.name) =
      (c5Offer "0" "1").contents.map (fun c => c.name))
    ∧ ((c5Roundtrip "0" "1").groupSemantics = "BUNDLE"
       ∧ (c5Roundtrip "0" "1").groupContentNames =
         (c5Offer "0" "1").contents.map (fun c => c.name))
    ∧ ((c5Roundtrip "0" "1").contents.map
        (fun c => c.payloads.map (fun p => p.id)) = [["111"], ["100"]]
       ∧ (c5Offer "0" "1").contents.map
          (fun c => ((c.description.getD { media := "" }).payloadTypes.map
            (fun p => p.id))) = [["111"], ["100"]])
    ∧ ((c5Roundtrip "0" "1").contents.map (fun c => (c.ufrag, c.pwd)) =
        [("u1frag", "p1wd"), ("u1frag", "p1wd")]
       ∧ (c5Offer "0" "1").contents.map
          (fun c => ((c.transport.getD {}).ufrag, (c.transport.getD {}).pwd)) =
        [("u1frag", "p1wd"), ("u1frag", "p1wd")])
    ∧ ((c5Offer "0" "1").contents.map
        (fun c => ((c.transport.getD {}).fingerprint.getD
          { value := "" }).setup) = ["actpass", "actpass"]
       ∧ (c5Roundtrip "0" "1").contents.map (fun c => c.fingerprint.setup) =
        ["active", "active"]
       ∧ (c5Roundtrip "0" "1").contents.map (fun c => c.fingerprint.value) =
        ["AA:BB:CC:DD:EE:FF:00:11", "AA:BB:CC:DD:EE:FF:00:11"]) := by
  refine ⟨by decide, ⟨by decide, by decide⟩, ⟨by decide, by decide⟩,
    ⟨by decide, by decide⟩, ⟨by decide, by decide, by decide⟩⟩

end Recorder
